import Mathlib

/-!
Shallow embedding of the SQS bounded long-poll waiter and the IAM MFA
device-enrollment flow of this repository (modules/aws).  External
collaborators (the SQS transport, the IAM identity boundary, the OTP
generator, the session provider) are abstracted as explicit environment
parameters; the control flow, arithmetic and data of the embedded
functions follow the Go source line by line.
-/

/-- A message as returned by the SQS transport boundary (the fields of
`sqs.Message` that `WaitForQueueMessage` reads). -/
structure Message where
  messageId : String
  receiptHandle : String
  body : String

/-- Result of one `ReceiveMessage` transport call: either the call itself
failed, or it succeeded carrying a (possibly empty) list of messages. -/
inductive ReceiveResult where
  | transportError (e : String)
  | messages (msgs : List Message)

/-- `ReceiveMessageTimeout` from the source: the structured error value
built when the waiter's deadline expires, carrying the queue URL and the
originally requested timeout. -/
structure ReceiveMessageTimeout where
  QueueUrl : String
  TimeoutSec : Nat

/-- The error stored in `QueueMessageResponse.Error`: either a transport
error propagated unmodified, or the structured `ReceiveMessageTimeout`. -/
inductive SqsError where
  | transport (e : String)
  | timeout (e : ReceiveMessageTimeout)

/-- `QueueMessageResponse` from the source; absent fields keep the Go
zero values. -/
structure QueueMessageResponse where
  ReceiptHandle : String := ""
  MessageBody : String := ""
  Error : Option SqsError := none

/-- `cycleLength` as computed by `WaitForQueueMessage`:
`cycleLength := 1; if timeout >= 20 { cycleLength = 20 }`. -/
def cycleLengthOf (timeout : Nat) : Nat :=
  if 20 ≤ timeout then 20 else 1

/-- `cycles` as computed by `WaitForQueueMessage`:
`cycles := timeout; if timeout >= 20 { cycles = timeout / cycleLength }`
with Go integer (floor) division. -/
def cyclesOf (timeout : Nat) : Nat :=
  if 20 ≤ timeout then timeout / 20 else timeout

/-- The `for i := 0; i < cycles; i++` loop body of `WaitForQueueMessage`.
`env i` is the outcome of the receive call of attempt `i`; `fuel` is the
number of iterations still to run.  Returns the early-exit response (if
any) together with the list of `WaitTimeSeconds` bounds actually passed
to the transport, one entry per receive call performed, in order. -/
def waitLoop (env : Nat → ReceiveResult) (cycleLength : Nat) :
    Nat → Nat → Option QueueMessageResponse × List Nat
  | _, 0 => (none, [])
  | i, fuel + 1 =>
    match env i with
    | ReceiveResult.transportError e =>
        (some { Error := some (SqsError.transport e) }, [cycleLength])
    | ReceiveResult.messages [] =>
        let r := waitLoop env cycleLength (i + 1) fuel
        (r.1, cycleLength :: r.2)
    | ReceiveResult.messages (m :: _) =>
        (some { ReceiptHandle := m.receiptHandle, MessageBody := m.body }, [cycleLength])

/-- `WaitForQueueMessage` from the source, with the SQS client already
constructed (the session-argument prefix is modelled separately by
`WaitForQueueMessageFull`).  Returns the `QueueMessageResponse` together
with the trace of wait bounds of the receive calls performed. -/
def WaitForQueueMessage (env : Nat → ReceiveResult) (queueURL : String)
    (timeout : Nat) : QueueMessageResponse × List Nat :=
  let p := waitLoop env (cycleLengthOf timeout) 0 (cyclesOf timeout)
  match p.1 with
  | some r => (r, p.2)
  | none =>
      ({ Error := some (SqsError.timeout
          { QueueUrl := queueURL, TimeoutSec := timeout }) }, p.2)

/-- An environment whose receive calls always succeed with no message. -/
def emptyQueueEnv : Nat → ReceiveResult :=
  fun _ => ReceiveResult.messages []

/-! ### The session-argument prefix of the public operations

Every public function of the source takes a variadic
`sessExists ...*session.Session` and evaluates `sessExists[0]`
unconditionally before doing anything else.  A Go slice index on an
empty slice is a run-time panic, which we model explicitly. -/

/-- Result of evaluating a Go expression that may panic at run time. -/
inductive GoEval (α : Type) where
  | ok (a : α)
  | runtimeError (msg : String)

/-- An opaque authenticated session handle. -/
structure Session where
  id : Nat

/-- The Go panic message produced by indexing an empty slice at 0. -/
def indexOutOfRangeMsg : String :=
  "runtime error: index out of range [0] with length 0"

/-- Collaborators of `GetIamCurrentUserNameE` (the session provider and
the IAM `GetUser` call), abstracted at the boundary described in the
spec: the provider takes an optional existing handle. -/
structure IamCollab where
  newAuthenticatedSession : Option Session → Except String Session
  getUserName : Session → Except String String

/-- `GetIamCurrentUserNameE` from the source: it evaluates
`sessExists[0]` first (panicking on an empty slice), then builds the
client via the session provider and calls `GetUser`. -/
def GetIamCurrentUserNameE (c : IamCollab) (sessExists : List Session) :
    GoEval (Except String String) :=
  match sessExists with
  | [] => GoEval.runtimeError indexOutOfRangeMsg
  | s :: _ =>
      match c.newAuthenticatedSession (some s) with
      | Except.error e => GoEval.ok (Except.error e)
      | Except.ok sess => GoEval.ok (c.getUserName sess)

/-- `WaitForQueueMessage` including its session-argument prefix: it
evaluates `sessExists[0]` first, then builds the SQS client (returning
the client-construction error in the response on failure), then runs the
polling loop. -/
def WaitForQueueMessageFull (newSqsClientE : Session → Except String Unit)
    (env : Nat → ReceiveResult) (queueURL : String) (timeout : Nat)
    (sessExists : List Session) : GoEval (QueueMessageResponse × List Nat) :=
  match sessExists with
  | [] => GoEval.runtimeError indexOutOfRangeMsg
  | s :: _ =>
      match newSqsClientE s with
      | Except.error e =>
          GoEval.ok ({ Error := some (SqsError.transport e) }, [])
      | Except.ok _ => GoEval.ok (WaitForQueueMessage env queueURL timeout)

/-! ### The MFA device-enrollment flow

`CreateMfaDeviceE` / `EnableMfaDeviceE` are embedded over a virtual
clock (time in seconds as `Nat`; only the explicit `time.Sleep` calls
advance it) and an event trace recording identity resolution, OTP
generation, the enable call and the sleeps, each with its timestamp. -/

/-- The fields of `iam.VirtualMFADevice` that the flow reads. -/
structure VirtualMFADevice where
  serialNumber : String
  base32StringSeed : String

/-- Observable events of an enrollment run, each stamped with the
virtual-clock time at which it happens. -/
inductive MfaEvent where
  | createDevice (time : Nat) (name : String)
  | resolveArn (time : Nat)
  | genCode (time : Nat) (code : String)
  | sleepEvt (time : Nat) (duration : Nat)
  | enableCall (time : Nat) (code1 code2 serial userName : String)

/-- Collaborators of the enrollment flow.
`getTimeBasedOneTimePassword` — Modelled from the spec: the repository's
`GetTimeBasedOneTimePassword` is not under src/; per the spec it is the
external one-time-password generator, a pure function of the device's
shared secret and the current time, here the current virtual-clock
time. -/
structure MfaEnv where
  createVirtualMFADevice : String → Except String VirtualMFADevice
  getIamCurrentUserArn : Except String String
  getTimeBasedOneTimePassword : VirtualMFADevice → Nat → Except String String
  enableMFADevice : String → String → String → String → Except String Unit

/-- Outcome of a run of `EnableMfaDeviceE`: the returned error value,
the event trace, and the virtual-clock time at which the function
returns. -/
structure EnableRun where
  result : Except String Unit
  trace : List MfaEvent
  endTime : Nat

/-- `EnableMfaDeviceE` from the source: resolve the caller's ARN,
generate the first code, sleep 30 seconds, generate the second code,
call `EnableMFADevice`, sleep 10 seconds, return nil.  Any step's error
is returned unmodified and ends the run at the current virtual time. -/
def EnableMfaDeviceE (env : MfaEnv) (dev : VirtualMFADevice) (t0 : Nat) :
    EnableRun :=
  match env.getIamCurrentUserArn with
  | Except.error e => ⟨Except.error e, [MfaEvent.resolveArn t0], t0⟩
  | Except.ok userName =>
      match env.getTimeBasedOneTimePassword dev t0 with
      | Except.error e => ⟨Except.error e, [MfaEvent.resolveArn t0], t0⟩
      | Except.ok code1 =>
          match env.getTimeBasedOneTimePassword dev (t0 + 30) with
          | Except.error e =>
              ⟨Except.error e,
                [MfaEvent.resolveArn t0, MfaEvent.genCode t0 code1,
                 MfaEvent.sleepEvt t0 30], t0 + 30⟩
          | Except.ok code2 =>
              match env.enableMFADevice code1 code2 dev.serialNumber userName with
              | Except.error e =>
                  ⟨Except.error e,
                    [MfaEvent.resolveArn t0, MfaEvent.genCode t0 code1,
                     MfaEvent.sleepEvt t0 30, MfaEvent.genCode (t0 + 30) code2,
                     MfaEvent.enableCall (t0 + 30) code1 code2 dev.serialNumber userName],
                    t0 + 30⟩
              | Except.ok _ =>
                  ⟨Except.ok (),
                    [MfaEvent.resolveArn t0, MfaEvent.genCode t0 code1,
                     MfaEvent.sleepEvt t0 30, MfaEvent.genCode (t0 + 30) code2,
                     MfaEvent.enableCall (t0 + 30) code1 code2 dev.serialNumber userName,
                     MfaEvent.sleepEvt (t0 + 30) 10],
                    t0 + 40⟩

/-- Outcome of a run of `CreateMfaDeviceE`: the two Go return values
(`*iam.VirtualMFADevice`, `error`), the event trace, and the
virtual-clock time at which the function returns. -/
structure CreateRun where
  device : Option VirtualMFADevice
  err : Option String
  trace : List MfaEvent
  endTime : Nat

/-- `CreateMfaDeviceE` from the source: create the virtual device
(returning `(nil, err)` on failure), then run `EnableMfaDeviceE`
(returning `(nil, err)` on its failure), and only on full success return
the device descriptor. -/
def CreateMfaDeviceE (env : MfaEnv) (deviceName : String) (t0 : Nat) :
    CreateRun :=
  match env.createVirtualMFADevice deviceName with
  | Except.error e =>
      ⟨none, some e, [MfaEvent.createDevice t0 deviceName], t0⟩
  | Except.ok dev =>
      let run := EnableMfaDeviceE env dev t0
      match run.result with
      | Except.error e =>
          ⟨none, some e, MfaEvent.createDevice t0 deviceName :: run.trace,
            run.endTime⟩
      | Except.ok _ =>
          ⟨some dev, none, MfaEvent.createDevice t0 deviceName :: run.trace,
            run.endTime⟩

/-- Timestamps of the code-generation events of a trace, in order. -/
def codeGenTimes : List MfaEvent → List Nat
  | [] => []
  | MfaEvent.genCode t _ :: rest => t :: codeGenTimes rest
  | _ :: rest => codeGenTimes rest

/-- Timestamps of the enable-call events of a trace, in order. -/
def enableCallTimes : List MfaEvent → List Nat
  | [] => []
  | MfaEvent.enableCall t _ _ _ _ :: rest => t :: enableCallTimes rest
  | _ :: rest => enableCallTimes rest

/-- Timestamps of the identity-resolution events of a trace, in order. -/
def resolveArnTimes : List MfaEvent → List Nat
  | [] => []
  | MfaEvent.resolveArn t :: rest => t :: resolveArnTimes rest
  | _ :: rest => resolveArnTimes rest

/-- An enrollment environment in which every step succeeds. -/
def mfaEnvOk : MfaEnv where
  createVirtualMFADevice := fun _ =>
    Except.ok { serialNumber := "serial-1", base32StringSeed := "seed" }
  getIamCurrentUserArn := Except.ok "arn:aws:iam::123:user/alice"
  getTimeBasedOneTimePassword := fun _ _ => Except.ok "123456"
  enableMFADevice := fun _ _ _ _ => Except.ok ()

/-- A concrete device for witnesses. -/
def dev1 : VirtualMFADevice :=
  { serialNumber := "serial-1", base32StringSeed := "seed" }

/-- An enrollment environment whose device-creation step fails. -/
def mfaEnvCreateFails : MfaEnv :=
  { mfaEnvOk with createVirtualMFADevice := fun _ => Except.error "create failed" }

/-- An enrollment environment whose ARN-resolution step fails. -/
def mfaEnvArnFails : MfaEnv :=
  { mfaEnvOk with getIamCurrentUserArn := Except.error "arn lookup failed" }

/-- A concrete message for witnesses. -/
def msg1 : Message :=
  { messageId := "id-1", receiptHandle := "rh-1", body := "hello" }

/-- A queue environment: first attempt empty, every later attempt fails
at the transport level. -/
def errAtOneEnv : Nat → ReceiveResult :=
  fun i => if i = 0 then ReceiveResult.messages []
           else ReceiveResult.transportError "connection reset"

/-- A queue environment: first attempt empty, every later attempt
returns `msg1`. -/
def msgAtOneEnv : Nat → ReceiveResult :=
  fun i => if i = 0 then ReceiveResult.messages []
           else ReceiveResult.messages [msg1]

/-! ### Waiter loop lemmas -/

/-- A run of the loop over attempts that all succeed with no message
performs one receive call per remaining iteration and exits with no
early response. -/
theorem waitLoop_empty (env : Nat → ReceiveResult) (cl : Nat) :
    ∀ fuel i, (∀ j, i ≤ j → j < i + fuel → env j = ReceiveResult.messages []) →
      waitLoop env cl i fuel = (none, List.replicate fuel cl) := by
  intro fuel
  induction fuel with
  | zero => intro i _; rfl
  | succ n ih =>
      intro i h
      have h0 : env i = ReceiveResult.messages [] := h i (Nat.le_refl i) (by omega)
      have ihx := ih (i + 1) (fun j h1 h2 => h j (by omega) (by omega))
      simp [waitLoop, h0, ihx, List.replicate_succ]

/-- If every attempt before `k` succeeds empty and attempt `k` fails at
the transport level, the loop performs exactly the attempts up to and
including `k` and exits with the transport error. -/
theorem waitLoop_error (env : Nat → ReceiveResult) (cl : Nat) (e : String) :
    ∀ fuel i k, i ≤ k → k < i + fuel →
      (∀ j, i ≤ j → j < k → env j = ReceiveResult.messages []) →
      env k = ReceiveResult.transportError e →
      waitLoop env cl i fuel =
        (some { Error := some (SqsError.transport e) },
         List.replicate (k - i) cl ++ [cl]) := by
  intro fuel
  induction fuel with
  | zero => intro i k h1 h2 _ _; omega
  | succ n ih =>
      intro i k h1 h2 hpre hk
      rcases Nat.eq_or_lt_of_le h1 with heq | hlt
      · subst heq
        simp [waitLoop, hk, Nat.sub_self]
      · have h0 : env i = ReceiveResult.messages [] := hpre i (Nat.le_refl i) hlt
        have ihx := ih (i + 1) k hlt (by omega)
          (fun j a b => hpre j (by omega) b) hk
        have hki : k - i = (k - (i + 1)) + 1 := by omega
        simp [waitLoop, h0, ihx, hki, List.replicate_succ]

/-- If every attempt before `k` succeeds empty and attempt `k` returns a
message, the loop performs exactly the attempts up to and including `k`
and exits with that message's receipt handle and body. -/
theorem waitLoop_message (env : Nat → ReceiveResult) (cl : Nat)
    (m : Message) (rest : List Message) :
    ∀ fuel i k, i ≤ k → k < i + fuel →
      (∀ j, i ≤ j → j < k → env j = ReceiveResult.messages []) →
      env k = ReceiveResult.messages (m :: rest) →
      waitLoop env cl i fuel =
        (some { ReceiptHandle := m.receiptHandle, MessageBody := m.body },
         List.replicate (k - i) cl ++ [cl]) := by
  intro fuel
  induction fuel with
  | zero => intro i k h1 h2 _ _; omega
  | succ n ih =>
      intro i k h1 h2 hpre hk
      rcases Nat.eq_or_lt_of_le h1 with heq | hlt
      · subst heq
        simp [waitLoop, hk, Nat.sub_self]
      · have h0 : env i = ReceiveResult.messages [] := hpre i (Nat.le_refl i) hlt
        have ihx := ih (i + 1) k hlt (by omega)
          (fun j a b => hpre j (by omega) b) hk
        have hki : k - i = (k - (i + 1)) + 1 := by omega
        simp [waitLoop, h0, ihx, hki, List.replicate_succ]

/-! ### Claims about the waiter -/

/-- C1 counterexample: at `totalTimeoutSeconds = 5` the code does not set
the chunk to `min(5, 20) = 5` and does not perform one receive call
bounded by 5 seconds; it sets the chunk to 1 and performs five
one-second calls. -/
theorem WaitForQueueMessage_min_chunk_cex :
    ¬ (cycleLengthOf 5 = min 5 20 ∧
       (WaitForQueueMessage emptyQueueEnv "queue-c1" 5).2 = [5]) := by
  decide

/-- C1 (amended): for `1 ≤ totalTimeoutSeconds ≤ 20`, the waiter sets
`chunkSeconds = 1` and performs exactly `totalTimeoutSeconds` receive
calls each bounded by 1 second when `totalTimeoutSeconds < 20`, and sets
`chunkSeconds = 20` and performs exactly one call bounded by 20 seconds
when `totalTimeoutSeconds = 20`; absent an early message or transport
error it then reports the structured timeout. -/
theorem WaitForQueueMessage_small_timeout (env : Nat → ReceiveResult)
    (q : String) (t : Nat) (h1 : 1 ≤ t) (h2 : t ≤ 20)
    (henv : ∀ i, env i = ReceiveResult.messages []) :
    cycleLengthOf t = (if t < 20 then 1 else 20) ∧
    cyclesOf t = (if t < 20 then t else 1) ∧
    (WaitForQueueMessage env q t).2 =
      List.replicate (cyclesOf t) (cycleLengthOf t) ∧
    (WaitForQueueMessage env q t).1 =
      { Error := some (SqsError.timeout { QueueUrl := q, TimeoutSec := t }) } := by
  have hl := waitLoop_empty env (cycleLengthOf t) (cyclesOf t) 0
    (fun j _ _ => henv j)
  refine ⟨?_, ?_, ?_, ?_⟩
  · simp only [cycleLengthOf]; split_ifs <;> omega
  · simp only [cyclesOf]; split_ifs <;> omega
  · simp [WaitForQueueMessage, hl]
  · simp [WaitForQueueMessage, hl]

/-- C1 witness: the amended statement at `totalTimeoutSeconds = 5`. -/
theorem WaitForQueueMessage_small_timeout_witness :
    cycleLengthOf 5 = (if 5 < 20 then 1 else 20) ∧
    cyclesOf 5 = (if 5 < 20 then 5 else 1) ∧
    (WaitForQueueMessage emptyQueueEnv "queue-c1" 5).2 =
      List.replicate (cyclesOf 5) (cycleLengthOf 5) ∧
    (WaitForQueueMessage emptyQueueEnv "queue-c1" 5).1 =
      { Error := some (SqsError.timeout
          { QueueUrl := "queue-c1", TimeoutSec := 5 }) } :=
  WaitForQueueMessage_small_timeout emptyQueueEnv "queue-c1" 5
    (by decide) (by decide) (fun _ => rfl)

/-- C2: for `totalTimeoutSeconds > 20`, the waiter performs exactly
`totalTimeoutSeconds / 20` (floor) receive calls each bounded by 20
seconds, absent an early message or transport error, silently dropping
any remainder, and then reports the structured timeout. -/
theorem WaitForQueueMessage_large_timeout (env : Nat → ReceiveResult)
    (q : String) (t : Nat) (ht : 20 < t)
    (henv : ∀ i, env i = ReceiveResult.messages []) :
    cycleLengthOf t = 20 ∧
    cyclesOf t = t / 20 ∧
    (WaitForQueueMessage env q t).2 = List.replicate (t / 20) 20 ∧
    (WaitForQueueMessage env q t).1 =
      { Error := some (SqsError.timeout { QueueUrl := q, TimeoutSec := t }) } := by
  have h20 : 20 ≤ t := Nat.le_of_lt ht
  have hcl : cycleLengthOf t = 20 := by simp [cycleLengthOf, h20]
  have hcy : cyclesOf t = t / 20 := by simp [cyclesOf, h20]
  have hl := waitLoop_empty env (cycleLengthOf t) (cyclesOf t) 0
    (fun j _ _ => henv j)
  rw [hcl, hcy] at hl
  refine ⟨hcl, hcy, ?_, ?_⟩ <;> simp [WaitForQueueMessage, hcl, hcy, hl]

/-- C2 witness: at `totalTimeoutSeconds = 25` exactly one 20-second call
is made (the 5-second remainder is dropped) and the structured timeout
is reported. -/
theorem WaitForQueueMessage_large_timeout_witness :
    cycleLengthOf 25 = 20 ∧
    cyclesOf 25 = 25 / 20 ∧
    (WaitForQueueMessage emptyQueueEnv "queue-c2" 25).2 =
      List.replicate (25 / 20) 20 ∧
    (WaitForQueueMessage emptyQueueEnv "queue-c2" 25).1 =
      { Error := some (SqsError.timeout
          { QueueUrl := "queue-c2", TimeoutSec := 25 }) } :=
  WaitForQueueMessage_large_timeout emptyQueueEnv "queue-c2" 25
    (by decide) (fun _ => rfl)

/-- C3: if every attempt before `k` succeeds with no message and attempt
`k` fails at the transport level, the waiter returns a response carrying
that error unmodified after exactly `k + 1` receive calls: it never
retries past the failure. -/
theorem WaitForQueueMessage_transport_error (env : Nat → ReceiveResult)
    (q : String) (t k : Nat) (e : String)
    (hk : k < cyclesOf t)
    (hpre : ∀ j, j < k → env j = ReceiveResult.messages [])
    (he : env k = ReceiveResult.transportError e) :
    WaitForQueueMessage env q t =
      ({ Error := some (SqsError.transport e) },
       List.replicate k (cycleLengthOf t) ++ [cycleLengthOf t]) := by
  have hl := waitLoop_error env (cycleLengthOf t) e (cyclesOf t) 0 k
    (Nat.zero_le k) (by omega) (fun j _ hj => hpre j hj) he
  simp only [Nat.sub_zero] at hl
  simp [WaitForQueueMessage, hl]

/-- C3 witness: with `timeout = 45` (2 iterations), an empty first
attempt and a transport failure on the second attempt: the error is
returned after exactly two calls. -/
theorem WaitForQueueMessage_transport_error_witness :
    WaitForQueueMessage errAtOneEnv "queue-c3" 45 =
      ({ Error := some (SqsError.transport "connection reset") },
       List.replicate 1 (cycleLengthOf 45) ++ [cycleLengthOf 45]) :=
  WaitForQueueMessage_transport_error errAtOneEnv "queue-c3" 45 1
    "connection reset" (by decide)
    (fun j hj => by
      have hj0 : j = 0 := by omega
      subst hj0
      rfl)
    rfl

/-- C4: if every attempt before `k` succeeds with no message and attempt
`k` returns a message, the waiter returns that message's receipt handle
and body (with no error) after exactly `k + 1` receive calls: later
attempts never occur. -/
theorem WaitForQueueMessage_message_received (env : Nat → ReceiveResult)
    (q : String) (t k : Nat) (m : Message) (rest : List Message)
    (hk : k < cyclesOf t)
    (hpre : ∀ j, j < k → env j = ReceiveResult.messages [])
    (hm : env k = ReceiveResult.messages (m :: rest)) :
    WaitForQueueMessage env q t =
      ({ ReceiptHandle := m.receiptHandle, MessageBody := m.body, Error := none },
       List.replicate k (cycleLengthOf t) ++ [cycleLengthOf t]) := by
  have hl := waitLoop_message env (cycleLengthOf t) m rest (cyclesOf t) 0 k
    (Nat.zero_le k) (by omega) (fun j _ hj => hpre j hj) hm
  simp only [Nat.sub_zero] at hl
  simp [WaitForQueueMessage, hl]

/-- C4 witness: with `timeout = 45`, an empty first attempt and a
message on the second attempt: its receipt handle and body come back
after exactly two calls. -/
theorem WaitForQueueMessage_message_received_witness :
    WaitForQueueMessage msgAtOneEnv "queue-c4" 45 =
      ({ ReceiptHandle := msg1.receiptHandle, MessageBody := msg1.body,
         Error := none },
       List.replicate 1 (cycleLengthOf 45) ++ [cycleLengthOf 45]) :=
  WaitForQueueMessage_message_received msgAtOneEnv "queue-c4" 45 1 msg1 []
    (by decide)
    (fun j hj => by
      have hj0 : j = 0 := by omega
      subst hj0
      rfl)
    rfl

/-- C5: if every scheduled attempt succeeds with no message, the waiter
returns the structured `ReceiveMessageTimeout` carrying the queue URL
and the originally requested timeout (as a `timeout` value, distinct
from the `transport` error constructor). -/
theorem WaitForQueueMessage_timed_out (env : Nat → ReceiveResult)
    (q : String) (t : Nat)
    (hempty : ∀ i, i < cyclesOf t → env i = ReceiveResult.messages []) :
    WaitForQueueMessage env q t =
      ({ Error := some (SqsError.timeout { QueueUrl := q, TimeoutSec := t }) },
       List.replicate (cyclesOf t) (cycleLengthOf t)) := by
  have hl := waitLoop_empty env (cycleLengthOf t) (cyclesOf t) 0
    (fun j _ hj => hempty j (by omega))
  simp [WaitForQueueMessage, hl]

/-- C5 witness: a run with `timeout = 5` and no messages returns the
structured timeout carrying the queue URL and the original 5. -/
theorem WaitForQueueMessage_timed_out_witness :
    WaitForQueueMessage emptyQueueEnv "queue-c5" 5 =
      ({ Error := some (SqsError.timeout
          { QueueUrl := "queue-c5", TimeoutSec := 5 }) },
       List.replicate (cyclesOf 5) (cycleLengthOf 5)) :=
  WaitForQueueMessage_timed_out emptyQueueEnv "queue-c5" 5 (fun _ _ => rfl)

/-! ### Claim about the optional session argument -/

/-- C6: with the variadic session argument omitted (`sessExists = []`),
the public operations evaluate `sessExists[0]` and hit a run-time
index-out-of-range panic before consulting any collaborator — they do
not request a fresh authenticated handle.  The result is independent of
every collaborator, so no fresh-session request can have been made. -/
theorem sessExists_omitted_runtime_error (c : IamCollab)
    (newSqsClientE : Session → Except String Unit)
    (env : Nat → ReceiveResult) (q : String) (t : Nat) :
    GetIamCurrentUserNameE c [] = GoEval.runtimeError indexOutOfRangeMsg ∧
    WaitForQueueMessageFull newSqsClientE env q t [] =
      GoEval.runtimeError indexOutOfRangeMsg :=
  ⟨rfl, rfl⟩

/-! ### Claims about the enrollment flow -/

/-- A successful run of `EnableMfaDeviceE` has the fully determined
event trace — ARN resolution, first code at the start time, a 30-second
sleep, second code 30 seconds later, the enable call, a 10-second
sleep — and returns 40 virtual seconds after it starts. -/
theorem EnableMfaDeviceE_ok_shape (env : MfaEnv) (dev : VirtualMFADevice)
    (t0 : Nat) (h : (EnableMfaDeviceE env dev t0).result = Except.ok ()) :
    ∃ userName code1 code2,
      (EnableMfaDeviceE env dev t0).trace =
        [MfaEvent.resolveArn t0, MfaEvent.genCode t0 code1,
         MfaEvent.sleepEvt t0 30, MfaEvent.genCode (t0 + 30) code2,
         MfaEvent.enableCall (t0 + 30) code1 code2 dev.serialNumber userName,
         MfaEvent.sleepEvt (t0 + 30) 10] ∧
      (EnableMfaDeviceE env dev t0).endTime = t0 + 40 := by
  cases h1 : env.getIamCurrentUserArn with
  | error e => simp [EnableMfaDeviceE, h1] at h
  | ok userName =>
      cases h2 : env.getTimeBasedOneTimePassword dev t0 with
      | error e => simp [EnableMfaDeviceE, h1, h2] at h
      | ok code1 =>
          cases h3 : env.getTimeBasedOneTimePassword dev (t0 + 30) with
          | error e => simp [EnableMfaDeviceE, h1, h2, h3] at h
          | ok code2 =>
              cases h4 : env.enableMFADevice code1 code2 dev.serialNumber userName with
              | error e => simp [EnableMfaDeviceE, h1, h2, h3, h4] at h
              | ok u =>
                  exact ⟨userName, code1, code2,
                    by simp [EnableMfaDeviceE, h1, h2, h3, h4]⟩

/-- C7: in every successful run of `EnableMfaDeviceE` the two submitted
codes are generated at virtual timestamps at least 30 seconds apart, and
the enable call does not happen before 30 seconds have elapsed after the
first code was generated. -/
theorem EnableMfaDeviceE_settle_delay (env : MfaEnv) (dev : VirtualMFADevice)
    (t0 : Nat) (h : (EnableMfaDeviceE env dev t0).result = Except.ok ()) :
    ∃ tc1 tc2 te,
      codeGenTimes (EnableMfaDeviceE env dev t0).trace = [tc1, tc2] ∧
      enableCallTimes (EnableMfaDeviceE env dev t0).trace = [te] ∧
      tc1 + 30 ≤ tc2 ∧ tc1 + 30 ≤ te := by
  obtain ⟨userName, code1, code2, htr, _⟩ := EnableMfaDeviceE_ok_shape env dev t0 h
  refine ⟨t0, t0 + 30, t0 + 30, ?_, ?_, Nat.le_refl _, Nat.le_refl _⟩ <;>
    simp [htr, codeGenTimes, enableCallTimes]

/-- C7 witness: a concrete all-successful run starting at virtual time 0
generates its codes at times 0 and 30 and calls enable at time 30. -/
theorem EnableMfaDeviceE_settle_delay_witness :
    ∃ tc1 tc2 te,
      codeGenTimes (EnableMfaDeviceE mfaEnvOk dev1 0).trace = [tc1, tc2] ∧
      enableCallTimes (EnableMfaDeviceE mfaEnvOk dev1 0).trace = [te] ∧
      tc1 + 30 ≤ tc2 ∧ tc1 + 30 ≤ te :=
  EnableMfaDeviceE_settle_delay mfaEnvOk dev1 0 rfl

/-- C8: in every successful run of `EnableMfaDeviceE`, the function does
not return before 10 virtual seconds have elapsed after the enable call
returned. -/
theorem EnableMfaDeviceE_propagation_delay (env : MfaEnv)
    (dev : VirtualMFADevice) (t0 : Nat)
    (h : (EnableMfaDeviceE env dev t0).result = Except.ok ()) :
    ∃ te, enableCallTimes (EnableMfaDeviceE env dev t0).trace = [te] ∧
      te + 10 ≤ (EnableMfaDeviceE env dev t0).endTime := by
  obtain ⟨userName, code1, code2, htr, hend⟩ :=
    EnableMfaDeviceE_ok_shape env dev t0 h
  exact ⟨t0 + 30, by simp [htr, enableCallTimes], by omega⟩

/-- C8 witness: a concrete all-successful run starting at virtual time 0
calls enable at time 30 and returns at time 40. -/
theorem EnableMfaDeviceE_propagation_delay_witness :
    ∃ te, enableCallTimes (EnableMfaDeviceE mfaEnvOk dev1 0).trace = [te] ∧
      te + 10 ≤ (EnableMfaDeviceE mfaEnvOk dev1 0).endTime :=
  EnableMfaDeviceE_propagation_delay mfaEnvOk dev1 0 rfl

/-- C9: if the device-creation step fails, `CreateMfaDeviceE` returns
`(nil, err)` with the creation error unmodified, the trace holds only
the creation attempt (no ARN resolution, no code generation, no sleeps),
and the virtual clock has not advanced. -/
theorem CreateMfaDeviceE_creation_error (env : MfaEnv) (name : String)
    (t0 : Nat) (e : String)
    (h : env.createVirtualMFADevice name = Except.error e) :
    CreateMfaDeviceE env name t0 =
      { device := none, err := some e,
        trace := [MfaEvent.createDevice t0 name], endTime := t0 } ∧
    resolveArnTimes (CreateMfaDeviceE env name t0).trace = [] ∧
    codeGenTimes (CreateMfaDeviceE env name t0).trace = [] := by
  refine ⟨by simp [CreateMfaDeviceE, h], ?_, ?_⟩ <;>
    simp [CreateMfaDeviceE, h, resolveArnTimes, codeGenTimes]

/-- C9 witness: a concrete run whose creation step fails returns the
creation error with no device, no later events, and no elapsed time. -/
theorem CreateMfaDeviceE_creation_error_witness :
    CreateMfaDeviceE mfaEnvCreateFails "dev-c9" 0 =
      { device := none, err := some "create failed",
        trace := [MfaEvent.createDevice 0 "dev-c9"], endTime := 0 } ∧
    resolveArnTimes (CreateMfaDeviceE mfaEnvCreateFails "dev-c9" 0).trace = [] ∧
    codeGenTimes (CreateMfaDeviceE mfaEnvCreateFails "dev-c9" 0).trace = [] :=
  CreateMfaDeviceE_creation_error mfaEnvCreateFails "dev-c9" 0 "create failed" rfl

/-- C10: if device creation succeeds but the enrollment flow fails,
`CreateMfaDeviceE` returns a nil device descriptor together with the
error — the created-but-never-enabled device's serial number is not
handed back. -/
theorem CreateMfaDeviceE_enable_error (env : MfaEnv) (name : String)
    (t0 : Nat) (dev : VirtualMFADevice) (e : String)
    (hc : env.createVirtualMFADevice name = Except.ok dev)
    (he : (EnableMfaDeviceE env dev t0).result = Except.error e) :
    (CreateMfaDeviceE env name t0).device = none ∧
    (CreateMfaDeviceE env name t0).err = some e := by
  constructor <;> simp [CreateMfaDeviceE, hc, he]

/-- C10 witness: with creation succeeding and ARN resolution failing,
the flow returns no device together with the ARN error. -/
theorem CreateMfaDeviceE_enable_error_witness :
    (CreateMfaDeviceE mfaEnvArnFails "dev-c10" 0).device = none ∧
    (CreateMfaDeviceE mfaEnvArnFails "dev-c10" 0).err =
      some "arn lookup failed" :=
  CreateMfaDeviceE_enable_error mfaEnvArnFails "dev-c10" 0 dev1
    "arn lookup failed" rfl rfl
